import Mathlib

/-!
Verification of the authentication / push-channel server of `src/server.js`
(repository winter0019/school_pay).

The server keeps a single piece of mutable state, `let users = new Map()`,
mapping a userName to the stored record.  The HTTP handlers
(`/register`, `/login`, `/logout`, `/profile`, `/groups`) and the WebSocket
connection handler are embedded below as pure functions from the state (and
the request body) to a response together with the resulting state.

`hashPassword` and `validatePassword` are called by the handlers but defined
nowhere in the repository; the specification treats them as an injected
opaque capability `{hash(raw) -> opaque, verify(raw, opaque) -> bool}`, so
here they are explicit function arguments of the handlers that use them.
-/

namespace SchoolPay

/-- The record stored in the `users` Map by `/register`:
`users.set(userName, { ...user, password: hashPassword(password) })`.
The `password` field holds the hash; `fields` holds the remaining body
fields carried along by the object spread. -/
structure UserRecord where
  password : String
  fields : List (String × String)
deriving DecidableEq, Repr

/-- The server's `users` Map, as an insertion-ordered association list
(JavaScript `Map` iterates in insertion order). -/
abbrev Users := List (String × UserRecord)

/-- A JSON response body: either `{message: ...}` or `{error: ...}`. -/
inductive Body where
  | message (m : String)
  | error (e : String)
deriving DecidableEq, Repr

/-- An HTTP response: status code plus JSON body. -/
structure Response where
  status : Nat
  body : Body
deriving DecidableEq, Repr

/-- Models `users.has(userName)`. -/
def hasUser (users : Users) (u : String) : Bool :=
  users.any (fun p => p.1 == u)

/-- Models `users.get(userName)` (as an `Option`; the handlers only call it after
a positive `has` check). -/
def getUser (users : Users) (u : String) : Option UserRecord :=
  (users.find? (fun p => p.1 == u)).map Prod.snd

/-- Models `users.set(userName, record)`: replaces the value if the key exists
(keeping insertion order), otherwise appends a new entry. -/
def mapSet (users : Users) (u : String) (r : UserRecord) : Users :=
  if hasUser users u then
    users.map (fun p => if p.1 == u then (u, r) else p)
  else
    users ++ [(u, r)]

/-- The body of a `/register` POST: `const { userName, password } = user`,
plus whatever other fields the object spread copies into the record. -/
structure RegisterReq where
  userName : String
  password : String
  fields : List (String × String)
deriving DecidableEq, Repr

/-- Handler `app.post("/register")`: reject with 400 if `users.has(userName)`,
otherwise store `{ ...user, password: hashPassword(password) }` and
answer 200. -/
def register (hashPassword : String → String) (users : Users)
    (req : RegisterReq) : Response × Users :=
  if hasUser users req.userName then
    (⟨400, .error "Username already taken"⟩, users)
  else
    (⟨200, .message "Registration successful! Please log in."⟩,
     mapSet users req.userName ⟨hashPassword req.password, req.fields⟩)

/-- Handler `app.post("/login")`: 400 "Invalid username" if `!users.has(userName)`;
otherwise fetch the record with `users.get` and answer 200 on
`validatePassword(password, user.password)`, 400 "Invalid password"
otherwise.  The `getD` default is never reached: `get` follows a positive
`has` check. -/
def login (validatePassword : String → String → Bool) (users : Users)
    (userName password : String) : Response × Users :=
  if hasUser users userName then
    let user := (getUser users userName).getD ⟨"", []⟩
    if validatePassword password user.password then
      (⟨200, .message "Login successful!"⟩, users)
    else
      (⟨400, .error "Invalid password"⟩, users)
  else
    (⟨400, .error "Invalid username"⟩, users)

/-- Handler `app.get("/logout")`: unconditionally 200, no state touched. -/
def logout (users : Users) : Response × Users :=
  (⟨200, .message "Logout successful!"⟩, users)

/-- Handler `app.get("/profile")`: unconditionally 200, no state touched. -/
def profile (users : Users) : Response × Users :=
  (⟨200, .message "Profile settings"⟩, users)

/-- Handler `app.get("/groups")`: unconditionally 200, no state touched. -/
def groups (users : Users) : Response × Users :=
  (⟨200, .message "Interest groups"⟩, users)

/-- The handshake payload sent by `wss.on('connection')`. -/
def handshakeMsg : Body := .message "WebSocket connection established"

/-- The messages the server sends on a channel entering Open:
`ws.send(JSON.stringify({ message: 'WebSocket connection established' }))`.
The handler never reads the server state (no authentication check), hence
the ignored argument. -/
def onConnection (_users : Users) : List Body := [handshakeMsg]

/-- The messages the server sends in reaction to an inbound WebSocket
message: the `ws.on('message')` handler only logs, it sends nothing. -/
def onMessage (_users : Users) (_msg : String) : List Body := []

/-- One external operation of the HTTP surface. -/
inductive Op where
  | reg (req : RegisterReq)
  | log (userName password : String)
  | out
  | prof
  | grp
deriving DecidableEq, Repr

/-- The state transition of one operation (responses discarded). -/
def step (hashPassword : String → String)
    (validatePassword : String → String → Bool) (users : Users) :
    Op → Users
  | .reg req => (register hashPassword users req).2
  | .log u p => (login validatePassword users u p).2
  | .out => (logout users).2
  | .prof => (profile users).2
  | .grp => (groups users).2

/-- Run a sequence of operations starting from the empty `users` Map. -/
def run (hashPassword : String → String)
    (validatePassword : String → String → Bool) (ops : List Op) : Users :=
  ops.foldl (step hashPassword validatePassword) []

/-! ### Basic lemmas about the store -/

theorem hasUser_iff_mem (users : Users) (u : String) :
    hasUser users u = true ↔ u ∈ users.map Prod.fst := by
  simp [hasUser, List.any_eq_true, List.mem_map, beq_iff_eq]

theorem hasUser_false_of_not_mem (users : Users) (u : String)
    (h : u ∉ users.map Prod.fst) : hasUser users u = false := by
  cases hh : hasUser users u with
  | false => rfl
  | true => exact absurd ((hasUser_iff_mem users u).mp hh) h

theorem getUser_mem_of_some (users : Users) (u : String) (r : UserRecord)
    (h : getUser users u = some r) : u ∈ users.map Prod.fst := by
  unfold getUser at h
  cases hf : users.find? (fun p => p.1 == u) with
  | none => rw [hf] at h; simp at h
  | some p =>
    have hpmem := List.mem_of_find?_eq_some hf
    have hpu : p.1 = u := by
      have := List.find?_some hf
      simpa [beq_iff_eq] using this
    exact List.mem_map.mpr ⟨p, hpmem, hpu⟩

theorem getUser_append_fresh (users : Users) (u : String) (r : UserRecord)
    (h : u ∉ users.map Prod.fst) :
    getUser (users ++ [(u, r)]) u = some r := by
  induction users with
  | nil => simp [getUser]
  | cons p rest ih =>
    have hpu : p.1 ≠ u := by
      intro he
      exact h (List.mem_map.mpr ⟨p, List.mem_cons_self p rest, he⟩)
    have hrest : u ∉ rest.map Prod.fst := by
      intro hm
      exact h (List.mem_map.mpr (by
        obtain ⟨q, hq, hqe⟩ := List.mem_map.mp hm
        exact ⟨q, List.mem_cons_of_mem p hq, hqe⟩))
    have hpbeq : (p.1 == u) = false := by simpa using hpu
    show getUser (p :: (rest ++ [(u, r)])) u = some r
    simp only [getUser, List.find?, hpbeq]
    exact ih hrest

theorem login_of_not_mem (validatePassword : String → String → Bool)
    (users : Users) (u p : String) (h : u ∉ users.map Prod.fst) :
    (login validatePassword users u p).1 = ⟨400, .error "Invalid username"⟩ := by
  simp [login, hasUser_false_of_not_mem users u h]

theorem login_of_getUser_some (validatePassword : String → String → Bool)
    (users : Users) (u p : String) (r : UserRecord)
    (hr : getUser users u = some r) :
    (login validatePassword users u p).1 =
      if validatePassword p r.password then ⟨200, .message "Login successful!"⟩
      else ⟨400, .error "Invalid password"⟩ := by
  have hh : hasUser users u = true :=
    (hasUser_iff_mem users u).mpr (getUser_mem_of_some users u r hr)
  simp only [login, hh, if_true, hr, Option.getD_some]
  split <;> rfl

theorem login_preserves_users (validatePassword : String → String → Bool)
    (users : Users) (u p : String) :
    (login validatePassword users u p).2 = users := by
  unfold login
  split
  · dsimp only
    split <;> rfl
  · rfl

theorem register_of_not_mem (hashPassword : String → String) (users : Users)
    (req : RegisterReq) (h : req.userName ∉ users.map Prod.fst) :
    register hashPassword users req =
      (⟨200, .message "Registration successful! Please log in."⟩,
       users ++ [(req.userName, ⟨hashPassword req.password, req.fields⟩)]) := by
  have hh := hasUser_false_of_not_mem users req.userName h
  simp [register, mapSet, hh]

theorem register_of_mem (hashPassword : String → String) (users : Users)
    (req : RegisterReq) (h : req.userName ∈ users.map Prod.fst) :
    register hashPassword users req =
      (⟨400, .error "Username already taken"⟩, users) := by
  have hh := (hasUser_iff_mem users req.userName).mpr h
  simp [register, hh]

theorem not_mem_of_register_200 (hashPassword : String → String)
    (users : Users) (req : RegisterReq)
    (h : (register hashPassword users req).1.status = 200) :
    req.userName ∉ users.map Prod.fst := by
  intro hm
  rw [register_of_mem hashPassword users req hm] at h
  simp at h

/-! ### Claim theorems -/

/-- C1: for every login request, if the username is absent from the
credential store the response is 400 with error "Invalid username"; if the
username is present but validation of the submitted password against the
stored hash fails the response is 400 with error "Invalid password";
otherwise the response is 200 with message "Login successful!". -/
theorem C1_login_responses (validatePassword : String → String → Bool)
    (users : Users) (u p : String) :
    (u ∉ users.map Prod.fst →
      (login validatePassword users u p).1 = ⟨400, .error "Invalid username"⟩)
    ∧ (∀ r : UserRecord, getUser users u = some r →
        validatePassword p r.password = false →
        (login validatePassword users u p).1 = ⟨400, .error "Invalid password"⟩)
    ∧ (∀ r : UserRecord, getUser users u = some r →
        validatePassword p r.password = true →
        (login validatePassword users u p).1
          = ⟨200, .message "Login successful!"⟩) := by
  refine ⟨fun h => login_of_not_mem validatePassword users u p h, ?_, ?_⟩
  · intro r hr hv
    rw [login_of_getUser_some validatePassword users u p r hr, hv]
    simp
  · intro r hr hv
    rw [login_of_getUser_some validatePassword users u p r hr, hv]
    simp

/-- Witness for C1: all three cases of the login response at concrete
inputs, using equality-with-suffix-hash as the injected validator. -/
theorem C1_login_responses_witness :
    (login (fun raw stored => raw ++ "#" == stored) [] "bob" "x").1
        = ⟨400, .error "Invalid username"⟩
    ∧ (login (fun raw stored => raw ++ "#" == stored)
        [("alice", ⟨"pw1#", []⟩)] "alice" "bad").1
        = ⟨400, .error "Invalid password"⟩
    ∧ (login (fun raw stored => raw ++ "#" == stored)
        [("alice", ⟨"pw1#", []⟩)] "alice" "pw1").1
        = ⟨200, .message "Login successful!"⟩ :=
  ⟨(C1_login_responses _ [] "bob" "x").1 (by simp),
   (C1_login_responses _ [("alice", ⟨"pw1#", []⟩)] "alice" "bad").2.1
      ⟨"pw1#", []⟩ (by rfl) (by decide),
   (C1_login_responses _ [("alice", ⟨"pw1#", []⟩)] "alice" "pw1").2.2
      ⟨"pw1#", []⟩ (by rfl) (by decide)⟩

/-- C2: register fails with 400 "Username already taken" iff the username
is already stored; otherwise it answers 200, stores a record whose
`password` field is the hash of the submitted raw password, and any second
register for the same username then fails with the duplicate error. -/
theorem C2_register_responses (hashPassword : String → String)
    (users : Users) (req : RegisterReq) :
    ((register hashPassword users req).1 = ⟨400, .error "Username already taken"⟩
        ↔ req.userName ∈ users.map Prod.fst)
    ∧ (req.userName ∉ users.map Prod.fst →
        (register hashPassword users req).1
            = ⟨200, .message "Registration successful! Please log in."⟩
        ∧ getUser (register hashPassword users req).2 req.userName
            = some ⟨hashPassword req.password, req.fields⟩
        ∧ ∀ req2 : RegisterReq, req2.userName = req.userName →
            (register hashPassword (register hashPassword users req).2 req2).1
                = ⟨400, .error "Username already taken"⟩) := by
  by_cases hm : req.userName ∈ users.map Prod.fst
  · rw [register_of_mem hashPassword users req hm]
    exact ⟨⟨fun _ => hm, fun _ => rfl⟩, fun hc => absurd hm hc⟩
  · rw [register_of_not_mem hashPassword users req hm]
    refine ⟨⟨fun he => by simp at he, fun hc => absurd hc hm⟩, fun _ => ⟨rfl, ?_, ?_⟩⟩
    · exact getUser_append_fresh users req.userName _ hm
    · intro req2 he
      have hm2 : req2.userName
          ∈ (users ++ [(req.userName,
              (⟨hashPassword req.password, req.fields⟩ : UserRecord))]).map Prod.fst := by
        rw [List.map_append, List.mem_append]
        exact Or.inr (by simp [he])
      rw [register_of_mem hashPassword _ req2 hm2]

/-- Witness for C2: registering "alice" in the empty store answers 200 and
stores the hashed password, a duplicate register answers 400, and the
duplicate-iff holds at a taken name. -/
theorem C2_register_responses_witness :
    ((register (fun s => s ++ "#") [("bob", ⟨"h", []⟩)] ⟨"bob", "q", []⟩).1
        = ⟨400, .error "Username already taken"⟩
      ↔ "bob" ∈ ([("bob", (⟨"h", []⟩ : UserRecord))].map Prod.fst))
    ∧ ((register (fun s => s ++ "#") [] ⟨"alice", "pw1", []⟩).1
          = ⟨200, .message "Registration successful! Please log in."⟩
      ∧ getUser (register (fun s => s ++ "#") [] ⟨"alice", "pw1", []⟩).2 "alice"
          = some ⟨"pw1#", []⟩
      ∧ (register (fun s => s ++ "#")
            (register (fun s => s ++ "#") [] ⟨"alice", "pw1", []⟩).2
            ⟨"alice", "other", []⟩).1
          = ⟨400, .error "Username already taken"⟩) := by
  refine ⟨(C2_register_responses (fun s => s ++ "#")
      [("bob", ⟨"h", []⟩)] ⟨"bob", "q", []⟩).1, ?_⟩
  have h := (C2_register_responses (fun s => s ++ "#") [] ⟨"alice", "pw1", []⟩).2
      (by simp)
  exact ⟨h.1, by simpa using h.2.1, h.2.2 ⟨"alice", "other", []⟩ rfl⟩

/-- C3: under the hypothesis that the injected capability validates the
registered raw password against its hash and rejects a different submitted
password, a successful register is followed by a successful login with the
same password and a 400 "Invalid password" login with the wrong one. -/
theorem C3_register_then_login (hashPassword : String → String)
    (validatePassword : String → String → Bool) (users : Users)
    (req : RegisterReq) (wrong : String)
    (hok : validatePassword req.password (hashPassword req.password) = true)
    (hbad : validatePassword wrong (hashPassword req.password) = false)
    (hsucc : (register hashPassword users req).1.status = 200) :
    (login validatePassword (register hashPassword users req).2
        req.userName req.password).1 = ⟨200, .message "Login successful!"⟩
    ∧ (login validatePassword (register hashPassword users req).2
        req.userName wrong).1 = ⟨400, .error "Invalid password"⟩ := by
  have hm := not_mem_of_register_200 hashPassword users req hsucc
  have hst : (register hashPassword users req).2
      = users ++ [(req.userName, ⟨hashPassword req.password, req.fields⟩)] := by
    rw [register_of_not_mem hashPassword users req hm]
  have hget : getUser (register hashPassword users req).2 req.userName
      = some ⟨hashPassword req.password, req.fields⟩ := by
    rw [hst]
    exact getUser_append_fresh users req.userName _ hm
  constructor
  · rw [login_of_getUser_some validatePassword _ req.userName req.password _ hget]
    simp [hok]
  · rw [login_of_getUser_some validatePassword _ req.userName wrong _ hget]
    simp [hbad]

/-- Witness for C3: register "alice" with password "pw1" in the empty
store, then log in with "pw1" (succeeds) and with "bad" (invalid
password), under the suffix-hash capability. -/
theorem C3_register_then_login_witness :
    (login (fun raw stored => raw ++ "#" == stored)
        (register (fun s => s ++ "#") [] ⟨"alice", "pw1", []⟩).2 "alice" "pw1").1
      = ⟨200, .message "Login successful!"⟩
    ∧ (login (fun raw stored => raw ++ "#" == stored)
        (register (fun s => s ++ "#") [] ⟨"alice", "pw1", []⟩).2 "alice" "bad").1
      = ⟨400, .error "Invalid password"⟩ :=
  C3_register_then_login (fun s => s ++ "#") (fun raw stored => raw ++ "#" == stored)
    [] ⟨"alice", "pw1", []⟩ "bad" (by decide) (by decide) (by decide)

theorem step_keys_nodup (hashPassword : String → String)
    (validatePassword : String → String → Bool) (users : Users) (op : Op)
    (h : (users.map Prod.fst).Nodup) :
    ((step hashPassword validatePassword users op).map Prod.fst).Nodup := by
  cases op with
  | reg req =>
    show ((register hashPassword users req).2.map Prod.fst).Nodup
    by_cases hm : req.userName ∈ users.map Prod.fst
    · rw [register_of_mem hashPassword users req hm]
      exact h
    · rw [register_of_not_mem hashPassword users req hm]
      have hfor : ∀ x : UserRecord, (req.userName, x) ∉ users := by
        intro x hx
        exact hm (List.mem_map.mpr ⟨(req.userName, x), hx, rfl⟩)
      simpa [List.nodup_append] using ⟨h, hfor⟩
  | log u p =>
    show ((login validatePassword users u p).2.map Prod.fst).Nodup
    rw [login_preserves_users]
    exact h
  | out => exact h
  | prof => exact h
  | grp => exact h

/-- C4: username uniqueness is an invariant: starting from the empty
credential store, after any sequence of register, login, logout, profile
and groups operations the `users` Map holds at most one record per
username (its key list has no duplicate). -/
theorem C4_username_uniqueness (hashPassword : String → String)
    (validatePassword : String → String → Bool) (ops : List Op) :
    ((run hashPassword validatePassword ops).map Prod.fst).Nodup := by
  suffices h : ∀ users : Users, (users.map Prod.fst).Nodup →
      ((ops.foldl (step hashPassword validatePassword) users).map
        Prod.fst).Nodup from h [] (by simp)
  induction ops with
  | nil => intro users h; simpa using h
  | cons op rest ih =>
    intro users h
    exact ih _ (step_keys_nodup hashPassword validatePassword users op h)

/-- C5 counterexample: the claim asserts that a successful login
invalidates the prior Authenticated session of that username and installs
a new session.  The server keeps no session state at all: at a concrete
store holding a registered "alice", a successful login for "alice"
returns 200 and leaves the entire server state exactly unchanged, so
nothing is invalidated and no session is installed. -/
theorem C5_login_installs_no_session :
    (login (fun raw stored => raw == stored)
        [("alice", ⟨"pw1", []⟩)] "alice" "pw1").1.status = 200
    ∧ (login (fun raw stored => raw == stored)
        [("alice", ⟨"pw1", []⟩)] "alice" "pw1").2
      = [("alice", ⟨"pw1", []⟩)] := by
  constructor <;> rfl

/-- C5 (amended): the server maintains no session registry; a successful
login performs no state change — it installs no session and invalidates no
prior session — so "at most one Authenticated session per username" holds
vacuously, there being no sessions. -/
theorem C5_successful_login_state_unchanged
    (validatePassword : String → String → Bool) (users : Users)
    (u p : String)
    (_hsucc : (login validatePassword users u p).1.status = 200) :
    (login validatePassword users u p).2 = users :=
  login_preserves_users validatePassword users u p

/-- Witness for the amended C5: a concrete successful login leaves the
store unchanged. -/
theorem C5_successful_login_state_unchanged_witness :
    (login (fun raw stored => raw == stored)
        [("bob", ⟨"x", []⟩)] "bob" "x").1.status = 200
    ∧ (login (fun raw stored => raw == stored)
        [("bob", ⟨"x", []⟩)] "bob" "x").2 = [("bob", ⟨"x", []⟩)] :=
  ⟨by decide,
   C5_successful_login_state_unchanged (fun raw stored => raw == stored)
     [("bob", ⟨"x", []⟩)] "bob" "x" (by decide)⟩

/-- C6: a register that fails with the duplicate-username error leaves the
credential store exactly unchanged: the stored record for that username
and every other entry of the mapping are identical before and after. -/
theorem C6_duplicate_register_no_effect (hashPassword : String → String)
    (users : Users) (req : RegisterReq)
    (h : req.userName ∈ users.map Prod.fst) :
    (register hashPassword users req).1 = ⟨400, .error "Username already taken"⟩
    ∧ (register hashPassword users req).2 = users := by
  rw [register_of_mem hashPassword users req h]
  exact ⟨rfl, rfl⟩

/-- Witness for C6: re-registering "alice" over an existing record answers
400 and returns the store unaltered. -/
theorem C6_duplicate_register_no_effect_witness :
    (register (fun s => s ++ "#") [("alice", ⟨"h1", []⟩), ("bob", ⟨"h2", []⟩)]
        ⟨"alice", "new", []⟩).1 = ⟨400, .error "Username already taken"⟩
    ∧ (register (fun s => s ++ "#") [("alice", ⟨"h1", []⟩), ("bob", ⟨"h2", []⟩)]
        ⟨"alice", "new", []⟩).2
      = [("alice", ⟨"h1", []⟩), ("bob", ⟨"h2", []⟩)] :=
  C6_duplicate_register_no_effect (fun s => s ++ "#")
    [("alice", ⟨"h1", []⟩), ("bob", ⟨"h2", []⟩)] ⟨"alice", "new", []⟩
    (by simp)

/-- C7: on every channel transition to Open the server sends exactly the
single handshake payload, whatever the server state (so independently of
any authentication), and the inbound-message handler sends nothing, so the
handshake is the first and only server-initiated message of the open
handler. -/
theorem C7_handshake_on_open (users : Users) (msg : String) :
    onConnection users = [Body.message "WebSocket connection established"]
    ∧ onMessage users msg = [] :=
  ⟨rfl, rfl⟩

/-- C8: logout has no failure case: in every state it answers 200 with
message "Logout successful!", and it is idempotent — a second logout gives
the same response and the same resulting state as a single one. -/
theorem C8_logout_total_idempotent (users : Users) :
    (logout users).1 = ⟨200, .message "Logout successful!"⟩
    ∧ logout (logout users).2 = logout users :=
  ⟨rfl, rfl⟩

/-- C9: login is read-only with respect to the credential store: for every
store and every login input (known or unknown username, correct or wrong
password) the `users` mapping after the operation equals the mapping
before it. -/
theorem C9_login_readonly (validatePassword : String → String → Bool)
    (users : Users) (u p : String) :
    (login validatePassword users u p).2 = users :=
  login_preserves_users validatePassword users u p

/-- C10: profile and groups perform no authentication check and no state
change: in every state — including the empty store where nobody ever
registered or logged in — profile answers 200 "Profile settings" and
groups answers 200 "Interest groups", with the credential store unchanged. -/
theorem C10_profile_groups_static (users : Users) :
    profile users = (⟨200, .message "Profile settings"⟩, users)
    ∧ groups users = (⟨200, .message "Interest groups"⟩, users) :=
  ⟨rfl, rfl⟩

end SchoolPay
